import Mathlib

/-!
Shallow embedding of the TechPal chat backend (app/llm_service.py, app/crud.py,
app/api.py, app/models.py) and proofs about its message validator, fallback
response table, provider gateway, conversation store and chat orchestrator.

Conventions of the embedding:
  - Python strings are Lean `String` (a list of characters); `str.lower()` is
    `pyLowerStr` (character-wise `Char.toLower`, which lowercases the ASCII
    range exactly as the keyword tests need); `needle in hay` is the substring
    test `pyIn`; `str.strip()` is `pyStrip`.
  - `datetime.utcnow()` readings are modelled by an explicit `now : Nat`
    argument to each store operation that records a timestamp.
  - Python exceptions are modelled with `Except PyErr`; a `try/except` block
    becomes a `match` on the `Except` value.
  - The SQLAlchemy session is modelled by a `Store` value holding the three
    tables as lists in insertion order together with autoincrement counters;
    `query(...).first()` is `List.find?`.
-/

set_option maxRecDepth 20000

namespace TechPal

/-! ## Python string primitives -/

/-- Character-wise lowercasing, the embedding of Python `str.lower()`
(llm_service.py line 71 and line 213 lowercase the message before the
keyword tests). -/
def pyLowerStr (s : String) : String := String.mk (s.data.map Char.toLower)

/-- Does `hay` start with `needle`?  Helper for the substring test. -/
def startsWithList : List Char → List Char → Bool
  | [], _ => true
  | _ :: _, [] => false
  | a :: as, b :: bs => a == b && startsWithList as bs

/-- The embedding of Python `needle in hay` for strings: `needle` occurs as a
contiguous substring of `hay`. -/
def pyIn (needle : List Char) : List Char → Bool
  | [] => startsWithList needle []
  | c :: rest => startsWithList needle (c :: rest) || pyIn needle rest

/-- The embedding of Python `str.strip()` with no argument: drop leading and
trailing whitespace. -/
def pyStrip (s : String) : String :=
  String.mk (((s.data.dropWhile Char.isWhitespace).reverse.dropWhile
    Char.isWhitespace).reverse)

/-! ## Fallback response table (llm_service.py lines 17-48) -/

/-- One age band's entry of the `fallback_responses` dictionary: a canned text
per topic key. -/
structure AgeResponses where
  greeting : String
  computer : String
  internet : String
  coding : String
  safety : String
  math : String
  science : String
  default : String
deriving DecidableEq

/-- The `8-10` entry of `fallback_responses` (llm_service.py lines 18-27). -/
def fb_8_10 : AgeResponses where
  greeting := "Hi there! I\x27m TechPal, your friendly AI learning assistant! I\x27m here to help you learn about technology, science, and school subjects. What would you like to know today?"
  computer := "Computers are like super-smart calculators that can follow instructions really fast! They have a brain (called a CPU) that thinks, memory to remember things, and can connect to the internet to learn new things. Think of them like having a very smart friend who can help you with homework, play games, and learn new things!"
  internet := "The internet is like a huge library that connects computers all around the world! It\x27s like having millions of books, videos, and games that you can access from anywhere. You can use it to learn new things, talk to friends, watch videos, and play games!"
  coding := "Coding is like giving instructions to a computer in a special language it understands! It\x27s like writing a recipe for a computer to follow. You can tell it to make games, websites, or even help with your homework!"
  safety := "Staying safe online is super important! Always ask a parent or teacher before sharing personal information, never talk to strangers online, and if something makes you uncomfortable, tell a trusted adult right away. The internet is amazing, but we need to be smart about how we use it!"
  math := "Math is everywhere in technology! Computers use math to solve problems, video games use math to create amazing graphics, and even your phone uses math to work. Let\x27s make math fun by connecting it to things you love, like games and technology!"
  science := "Science and technology go hand in hand! Scientists use computers to discover new things, create amazing inventions, and solve big problems. From robots to space exploration, science and technology make the world more exciting!"
  default := "That\x27s a great question! I love helping kids learn about technology and science. Let me think about that... Actually, I\x27m having a little trouble connecting to my brain right now, but I\x27d be happy to help you with questions about computers, the internet, coding, math, science, or staying safe online!"

/-- The `11-13` entry of `fallback_responses` (llm_service.py lines 28-37). -/
def fb_11_13 : AgeResponses where
  greeting := "Hello! I\x27m TechPal, your AI learning assistant. I\x27m here to help you explore technology, science, and school subjects in a fun and educational way. What topic interests you today?"
  computer := "Computers are sophisticated machines that process information using binary code (1s and 0s). They have a central processing unit (CPU) that executes instructions, memory to store data temporarily, and storage to keep information permanently. Modern computers can perform billions of calculations per second!"
  internet := "The internet is a global network of connected computers that allows information to be shared worldwide. It works through a system of servers, routers, and cables that transmit data packets. The World Wide Web, email, and online gaming all rely on this network infrastructure."
  coding := "Programming is the process of writing instructions for computers using programming languages like Python, JavaScript, or Scratch. It involves logical thinking, problem-solving, and creativity. You can create websites, games, apps, and even control robots!"
  safety := "Online safety is crucial in today\x27s digital world. Protect your personal information, use strong passwords, be cautious about what you share, and always verify information before believing it. Remember that not everything online is true or safe."
  math := "Mathematics is fundamental to technology! Algorithms, data analysis, cryptography, and artificial intelligence all rely on mathematical principles. Understanding math helps you think logically and solve complex problems in programming and science."
  science := "Technology and science are deeply interconnected. Scientific discoveries drive technological innovation, while technology enables new scientific research methods. From renewable energy to medical breakthroughs, this partnership shapes our future."
  default := "That\x27s an interesting question! I\x27m designed to help students learn about technology, science, and academic subjects. I\x27m currently experiencing some connectivity issues, but I can help you with topics like programming, computer science, mathematics, physics, or digital literacy!"

/-- The `14-16` entry of `fallback_responses` (llm_service.py lines 38-47). -/
def fb_14_16 : AgeResponses where
  greeting := "Welcome to TechPal! I\x27m your AI learning assistant, designed to help you explore technology, science, and academic subjects. I can assist with programming concepts, scientific principles, mathematical problem-solving, and digital literacy. What would you like to learn about?"
  computer := "Computers are complex systems that execute instructions through hardware and software components. The CPU processes data using transistors and logic gates, while memory hierarchies manage data access speeds. Operating systems coordinate hardware resources, and applications provide user functionality."
  internet := "The internet operates on a layered architecture including physical infrastructure (cables, routers), network protocols (TCP/IP), and application services. It enables global communication, data exchange, and distributed computing through client-server and peer-to-peer models."
  coding := "Software development involves multiple programming paradigms, data structures, algorithms, and software engineering principles. Modern development includes version control, testing frameworks, and deployment strategies. Programming skills are essential for automation, data analysis, and creating digital solutions."
  safety := "Cybersecurity encompasses protecting systems, networks, and data from digital attacks. This includes understanding encryption, authentication methods, secure coding practices, and recognizing social engineering threats. Digital literacy is crucial for navigating the modern information landscape."
  math := "Advanced mathematics underpins modern technology, including calculus for physics simulations, linear algebra for computer graphics, statistics for data science, and discrete mathematics for algorithms. Mathematical thinking is essential for problem-solving in technology and science."
  science := "Scientific methodology and technological innovation drive progress across disciplines. From quantum computing to biotechnology, understanding scientific principles enables technological advancement. Research methods, data analysis, and experimental design are crucial skills."
  default := "That\x27s a sophisticated question! I\x27m designed to support learning in technology, computer science, mathematics, physics, and related fields. I\x27m currently experiencing some technical difficulties, but I can help you with programming concepts, scientific principles, mathematical problem-solving, or digital literacy topics."

/-- The `fallback_responses` dictionary viewed as a partial map from age-band
key to entry (`age_group in self.fallback_responses` is `Option.isSome`,
indexing is the `Option` payload). -/
def fallback_responses (age_group : String) : Option AgeResponses :=
  if age_group = "8-10" then some fb_8_10
  else if age_group = "11-13" then some fb_11_13
  else if age_group = "14-16" then some fb_14_16
  else none

/-- Lines 74-77 of llm_service.py: an age group that is not a key of
`fallback_responses` is replaced by `11-13` before indexing. -/
def resolved_responses (age_group : String) : AgeResponses :=
  match fallback_responses age_group with
  | some r => r
  | none => fb_11_13

/-- Python `any(word in message_lower for word in words)`. -/
def containsAny (words : List String) (message_lower : String) : Bool :=
  words.any (fun w => pyIn w.data message_lower.data)

/-- `LLMService._get_fallback_response` (llm_service.py lines 69-95) for a
string message: lowercase the message, resolve the age group, then walk the
keyword chain in source order. -/
def get_fallback_response (message age_group : String) : String :=
  let message_lower := pyLowerStr message
  let responses := resolved_responses age_group
  if containsAny ["hello", "hi", "hey", "start"] message_lower then
    responses.greeting
  else if containsAny ["computer", "pc", "laptop", "machine"] message_lower then
    responses.computer
  else if containsAny ["internet", "web", "online", "network"] message_lower then
    responses.internet
  else if containsAny ["code", "programming", "coding", "python", "javascript"] message_lower then
    responses.coding
  else if containsAny ["safe", "safety", "protect", "security"] message_lower then
    responses.safety
  else if containsAny ["math", "mathematics", "calculate", "equation"] message_lower then
    responses.math
  else if containsAny ["science", "scientific", "physics", "chemistry", "biology"] message_lower then
    responses.science
  else
    responses.default

/-- The eight texts of one age band's entry, in table order. -/
def AgeResponses.entryList (r : AgeResponses) : List String :=
  [r.greeting, r.computer, r.internet, r.coding, r.safety, r.math, r.science,
   r.default]

/-- All twenty-four texts of the static fallback response table. -/
def fallback_table_entries : List String :=
  fb_8_10.entryList ++ fb_11_13.entryList ++ fb_14_16.entryList

/-! ## Message validator (llm_service.py lines 198-221) -/

/-- The dictionary returned by `validate_message`: keys `valid` and
`reason`. -/
structure ValidationResult where
  valid : Bool
  reason : String
deriving DecidableEq

/-- The `inappropriate_words` list (llm_service.py lines 208-211). -/
def inappropriate_words : List String :=
  ["password", "credit card", "social security", "address", "phone number",
   "personal information", "private", "secret"]

/-- The reason string returned on an `inappropriate_words` match
(llm_service.py line 218). -/
def personal_info_reason : String :=
  "Please don\x27t share personal information. Ask a parent or teacher for help with personal matters."

/-- `LLMService.validate_message` (llm_service.py lines 198-221): empty check,
length check, then the first matching word of `inappropriate_words` in the
lowercased message; the loop returns on the first match, which `List.find?`
captures. -/
def validate_message (message : String) : ValidationResult :=
  if message.data = [] ∨ (pyStrip message).data = [] then
    ⟨false, "Message cannot be empty"⟩
  else if message.data.length > 1000 then
    ⟨false, "Message too long (max 1000 characters)"⟩
  else
    match inappropriate_words.find?
        (fun w => pyIn w.data (pyLowerStr message).data) with
    | some _ => ⟨false, personal_info_reason⟩
    | none => ⟨true, "Message is appropriate"⟩

/-! ## Provider gateway (llm_service.py lines 144-166) -/

/-- The Python exception classes that the gateway paths can raise. -/
inductive PyErr
  | attributeError
  | valueError
deriving DecidableEq

/-- The value bound to the `message` parameter of `LLMService.get_response`.
The service code expects a string, but api.py line 146 passes the list of
role/content dictionaries returned by `get_conversation_history`. -/
inductive MsgArg
  | str (s : String)
  | history (h : List (String × String))

/-- The `LLMService` instance state: each client attribute is `None` until a
key is configured; a configured client maps a call to a returned string or a
raised exception (llm_service.py lines 11-13 and 50-67). -/
structure LLMService where
  openai_client : Option (MsgArg → String → Except PyErr String)
  anthropic_client : Option (MsgArg → String → Except PyErr String)

/-- `_get_fallback_response` as invoked on an arbitrary `message` argument:
`message.lower()` (line 71) raises `AttributeError` when the argument is the
history list instead of a string. -/
def fallback_on_arg (message : MsgArg) (age_group : String) :
    Except PyErr String :=
  match message with
  | .str s => .ok (get_fallback_response s age_group)
  | .history _ => .error .attributeError

/-- The `try` body of `get_response` (llm_service.py lines 146-161): the two
preferred-provider branches, the two other-provider branches, then the
fallback return.  A configured client's call may raise, which the `Except`
propagates. -/
def get_response_body (svc : LLMService) (message : MsgArg)
    (age_group provider : String) : Except PyErr String :=
  if h : provider = "openai" ∧ svc.openai_client.isSome then
    (svc.openai_client.get h.2) message age_group
  else if h : provider = "anthropic" ∧ svc.anthropic_client.isSome then
    (svc.anthropic_client.get h.2) message age_group
  else if h : provider ≠ "anthropic" ∧ svc.anthropic_client.isSome then
    (svc.anthropic_client.get h.2) message age_group
  else if h : provider ≠ "openai" ∧ svc.openai_client.isSome then
    (svc.openai_client.get h.2) message age_group
  else
    fallback_on_arg message age_group

/-- `LLMService.get_response` (llm_service.py lines 144-166): run the `try`
body; on any exception return `_get_fallback_response(message, age_group)`
(lines 163-166), which itself can raise again on a non-string message. -/
def get_response (svc : LLMService) (message : MsgArg)
    (age_group provider : String) : Except PyErr String :=
  match get_response_body svc message age_group provider with
  | .ok s => .ok s
  | .error _ => fallback_on_arg message age_group

/-! ## Conversation store (app/models.py, app/crud.py) -/

/-- A Python value stored in the `tokens_used` column: the happy path stores
an `int`, but api.py line 146 can bind `tokens_used` to a one-character
string (unpacking a string yields strings), which SQLite would accept. -/
inductive PyTok
  | int (n : Nat)
  | str (s : String)
deriving DecidableEq

/-- A row of the `users` table (models.py lines 11-20). -/
structure UserRow where
  id : Nat
  session_id : String
  age_group : Option String
deriving DecidableEq

/-- A row of the `conversations` table (models.py lines 22-32); timestamps
are a logical clock. -/
structure ConvRow where
  id : Nat
  user_id : Nat
  title : String
  created_at : Nat
  updated_at : Nat
deriving DecidableEq

/-- A row of the `messages` table (models.py lines 34-45). -/
structure MsgRow where
  id : Nat
  conversation_id : Nat
  role : String
  content : String
  created_at : Nat
  tokens_used : PyTok
  llm_provider : String
deriving DecidableEq

/-- The database state: the three tables in insertion order plus the
autoincrement counters. -/
structure Store where
  users : List UserRow
  conversations : List ConvRow
  messages : List MsgRow
  next_user_id : Nat
  next_conversation_id : Nat
  next_message_id : Nat
deriving DecidableEq

/-- `crud.get_user_by_session_id` (crud.py lines 21-23): `first()` on the
session-id filter. -/
def get_user_by_session_id (db : Store) (session_id : String) :
    Option UserRow :=
  db.users.find? (fun u => u.session_id == session_id)

/-- `crud.create_user` (crud.py lines 10-19): insert and commit a new user
row. -/
def create_user (db : Store) (session_id : String)
    (age_group : Option String) : UserRow × Store :=
  let u : UserRow := ⟨db.next_user_id, session_id, age_group⟩
  (u, { db with users := db.users ++ [u],
                next_user_id := db.next_user_id + 1 })

/-- `crud.get_or_create_user` (crud.py lines 25-31). -/
def get_or_create_user (db : Store) (session_id : String)
    (age_group : Option String) : UserRow × Store :=
  match get_user_by_session_id db session_id with
  | some u => (u, db)
  | none => create_user db session_id age_group

/-- `crud.get_conversation` (crud.py lines 47-49). -/
def get_conversation (db : Store) (conversation_id : Nat) : Option ConvRow :=
  db.conversations.find? (fun c => c.id == conversation_id)

/-- `crud.create_conversation` (crud.py lines 33-45): a falsy title is
replaced by a generated one; `created_at` and `updated_at` both default to
the current time (models.py lines 28-29). -/
def create_conversation (db : Store) (user_id : Nat) (title : Option String)
    (now : Nat) : ConvRow × Store :=
  let t := match title with
    | some s => if s.data = [] then "Conversation " ++ toString now else s
    | none => "Conversation " ++ toString now
  let c : ConvRow := ⟨db.next_conversation_id, user_id, t, now, now⟩
  (c, { db with conversations := db.conversations ++ [c],
                next_conversation_id := db.next_conversation_id + 1 })

/-- `crud.create_message` (crud.py lines 59-72): insert and commit a message
row; the conversation row is not touched. -/
def create_message (db : Store) (conversation_id : Nat)
    (content role : String) (tokens_used : PyTok) (llm_provider : String)
    (now : Nat) : MsgRow × Store :=
  let m : MsgRow := ⟨db.next_message_id, conversation_id, role, content, now,
    tokens_used, llm_provider⟩
  (m, { db with messages := db.messages ++ [m],
                next_message_id := db.next_message_id + 1 })

/-- `crud.get_conversation_messages` (crud.py lines 74-79): all messages of
the conversation ordered by `created_at`; with a monotone clock the insertion
order already is that order. -/
def get_conversation_messages (db : Store) (conversation_id : Nat) :
    List MsgRow :=
  db.messages.filter (fun m => m.conversation_id == conversation_id)

/-- `crud.update_conversation_timestamp` (crud.py lines 81-86): set
`updated_at` of the conversation to the current time. -/
def update_conversation_timestamp (db : Store) (conversation_id : Nat)
    (now : Nat) : Store :=
  { db with conversations := db.conversations.map (fun c =>
      if c.id == conversation_id then { c with updated_at := now } else c) }

/-- `crud.get_conversation_history` (crud.py lines 100-109): role/content
pairs of the conversation's messages. -/
def get_conversation_history (db : Store) (conversation_id : Nat) :
    List (String × String) :=
  (get_conversation_messages db conversation_id).map
    (fun m => (m.role, m.content))

/-! ## Chat orchestrator (api.py lines 105-170) -/

/-- The `ChatRequest` schema (models.py lines 91-95). -/
structure ChatRequest where
  message : String
  conversation_id : Option Nat
  session_id : String
  age_group : Option String

/-- The `ChatResponse` schema (models.py lines 97-102). -/
structure ChatResponseOut where
  response : String
  conversation_id : Nat
  message_id : Nat
  tokens_used : PyTok
  llm_provider : String
deriving DecidableEq

/-- Outcome of the `/chat` endpoint.  Every exception raised inside the
handler's `try` block, the explicit `HTTPException`s included, is caught by
the `except Exception` clause (api.py lines 165-170) and re-raised as an
HTTP 500, so the only outcomes are success and a server error. -/
inductive ChatOutcome
  | success (r : ChatResponseOut)
  | serverError
deriving DecidableEq

/-- Python truthiness of the dictionary returned by `validate_message`: a
two-key dictionary is non-empty, hence always truthy, so the check
`if not llm_service.validate_message(request.message)` on api.py line 115
never fires. -/
def validationResultTruthy (_ : ValidationResult) : Bool := true

/-- Python tuple unpacking of a string into three targets (api.py line 146):
it succeeds exactly when the string has three characters, binding each target
to a one-character string, and raises `ValueError` otherwise. -/
def unpack3 (s : String) : Except PyErr (String × String × String) :=
  match s.data with
  | [a, b, c] => .ok (String.mk [a], String.mk [b], String.mk [c])
  | _ => .error .valueError

/-- `chat_with_techpal` (api.py lines 105-170).  Each store write commits as
it happens, so the store returned on an error outcome keeps the writes made
before the failure. -/
def chat_with_techpal (svc : LLMService) (db : Store) (req : ChatRequest)
    (now : Nat) : ChatOutcome × Store :=
  if !(validationResultTruthy (validate_message req.message)) then
    (.serverError, db)
  else
    let userDb := get_or_create_user db req.session_id req.age_group
    let user := userDb.1
    let db1 := userDb.2
    let conv? : Option (ConvRow × Store) :=
      match req.conversation_id with
      | some cid =>
        match get_conversation db1 cid with
        | some c => if c.user_id == user.id then some (c, db1) else none
        | none => none
      | none =>
        let title := if req.message.data.length > 50 then
            String.mk (req.message.data.take 50) ++ "..."
          else req.message
        some (create_conversation db1 user.id (some title) now)
    match conv? with
    | none => (.serverError, db1)
    | some (conv, db2) =>
      let db3 := (create_message db2 conv.id req.message "user" (.int 0)
        "unknown" now).2
      let history := get_conversation_history db3 conv.id
      match get_response svc (.history history) "11-13" "openai" with
      | .error _ => (.serverError, db3)
      | .ok s =>
        match unpack3 s with
        | .error _ => (.serverError, db3)
        | .ok (rc, tu, pv) =>
          let asstDb := create_message db3 conv.id rc "assistant" (.str tu)
            pv now
          let db5 := update_conversation_timestamp asstDb.2 conv.id now
          (.success ⟨rc, conv.id, asstDb.1.id, .str tu, pv⟩, db5)



/-! ## Spec-side model of the fallback lookup (spec section 4.5) -/

/-- Modelled from the spec: the topic priority list, highest priority first,
with the keyword set of each topic and the table field it selects. -/
def spec_topic_table : List (List String × (AgeResponses → String)) :=
  [(["hello", "hi", "hey", "start"], AgeResponses.greeting),
   (["computer", "pc", "laptop", "machine"], AgeResponses.computer),
   (["internet", "web", "online", "network"], AgeResponses.internet),
   (["code", "programming", "coding", "python", "javascript"],
     AgeResponses.coding),
   (["safe", "safety", "protect", "security"], AgeResponses.safety),
   (["math", "mathematics", "calculate", "equation"], AgeResponses.math),
   (["science", "scientific", "physics", "chemistry", "biology"],
     AgeResponses.science)]

/-- Modelled from the spec: case-insensitive keyword membership test over a
fixed keyword set per topic, first matching topic wins in the fixed priority
order, no match selects `default`, and an age band outside the three known
bands is coerced to the middle band. -/
def fallback_spec (message age_band : String) : String :=
  let ml := pyLowerStr message
  let responses :=
    if age_band = "8-10" then fb_8_10
    else if age_band = "11-13" then fb_11_13
    else if age_band = "14-16" then fb_14_16
    else fb_11_13
  match spec_topic_table.find? (fun e => containsAny e.1 ml) with
  | some e => e.2 responses
  | none => responses.default


/-- The gateway state with neither provider configured (no API keys). -/
def no_provider_service : LLMService := ⟨none, none⟩

/-- C3 counterexample gateway state: the openai client is configured and
raises on every call, the anthropic client is configured and returns the
distinctive reply `anthropic-reply`. -/
def c3_service : LLMService :=
  ⟨some (fun _ _ => .error .attributeError),
   some (fun _ _ => .ok "anthropic-reply")⟩

/-- A provider client that raises on every call. -/
def c3_fail_fun : MsgArg → String → Except PyErr String :=
  fun _ _ => .error .valueError

/-- Gateway state for the amended C3 witness: both clients configured and
raising on every call. -/
def c3_failing_service : LLMService := ⟨some c3_fail_fun, some c3_fail_fun⟩


/-- A store holding one user, used by the C5 counterexample. -/
def c5_store : Store := ⟨[⟨1, "sess", none⟩], [], [], 2, 1, 1⟩

/-- The conversation created at time 0 in the C5 counterexample. -/
def c5_conv_db : ConvRow × Store :=
  create_conversation c5_store 1 (some "first conversation") 0

/-- The store after appending one message at time 5, without any call to
`update_conversation_timestamp`. -/
def c5_db_after_append : Store :=
  (create_message c5_conv_db.2 c5_conv_db.1.id "first question" "user"
    (.int 0) "unknown" 5).2

/-- A one-conversation store for the amended C5 witness: conversation 1 was
created at time 0 and last updated at time 3. -/
def c5_witness_store : Store := ⟨[⟨1, "sess", none⟩], [⟨1, 1, "t", 0, 3⟩], [], 2, 2, 1⟩

/-- The empty store: no rows, all autoincrement counters at 1. -/
def empty_store : Store := ⟨[], [], [], 1, 1, 1⟩

/-- The C1 scenario request: new session token, message `Hello!`, age band
`8-10`, no conversation id. -/
def c1_request : ChatRequest := ⟨"Hello!", none, "new-session-token", some "8-10"⟩

/-- A message of 1001 characters, used by the C2 scenario. -/
def c2_long_message : String := String.mk (List.replicate 1001 'a')

/-- The C2 scenario request: an over-long message from a new session. -/
def c2_request : ChatRequest := ⟨c2_long_message, none, "session-c2", none⟩

/-! ## Helper lemmas -/

lemma startsWithList_subset :
    ∀ (w h : List Char), startsWithList w h = true → ∀ c ∈ w, c ∈ h := by
  intro w
  induction w with
  | nil => intro h _ c hc; cases hc
  | cons a as ih =>
    intro h hs c hc
    cases h with
    | nil => simp [startsWithList] at hs
    | cons b bs =>
      simp only [startsWithList, Bool.and_eq_true, beq_iff_eq] at hs
      rcases List.mem_cons.mp hc with rfl | hc
      · exact hs.1 ▸ List.mem_cons_self _ _
      · exact List.mem_cons_of_mem _ (ih bs hs.2 c hc)

lemma pyIn_subset :
    ∀ (w h : List Char), pyIn w h = true → ∀ c ∈ w, c ∈ h := by
  intro w h
  induction h with
  | nil =>
    intro hp c hc
    exact startsWithList_subset w [] (by simpa [pyIn] using hp) c hc
  | cons b bs ih =>
    intro hp c hc
    simp only [pyIn, Bool.or_eq_true] at hp
    rcases hp with hp | hp
    · exact startsWithList_subset _ _ hp c hc
    · exact List.mem_cons_of_mem _ (ih hp c hc)

lemma mem_dropWhile_of_neg {p : Char → Bool} :
    ∀ {l : List Char} {x : Char}, x ∈ l → p x = false → x ∈ l.dropWhile p := by
  intro l
  induction l with
  | nil => intro x hx _; cases hx
  | cons a as ih =>
    intro x hx hpx
    by_cases ha : p a = true
    · rw [List.dropWhile_cons_of_pos ha]
      rcases List.mem_cons.mp hx with rfl | hx
      · rw [ha] at hpx; cases hpx
      · exact ih hx hpx
    · rw [List.dropWhile_cons_of_neg ha]
      exact hx

lemma pyStrip_ne_nil {s : String} {c : Char} (hc : c ∈ s.data)
    (hcw : c.isWhitespace = false) : (pyStrip s).data ≠ [] := by
  intro hnil
  simp only [pyStrip, List.reverse_eq_nil_iff] at hnil
  have hmem : c ∈ s.data.dropWhile Char.isWhitespace :=
    mem_dropWhile_of_neg hc hcw
  have hall := List.dropWhile_eq_nil_iff.mp hnil
  have : Char.isWhitespace c = true :=
    hall c (List.mem_reverse.mpr hmem)
  rw [hcw] at this
  cases this

lemma toLower_of_whitespace {c : Char} (h : c.isWhitespace = true) :
    Char.toLower c = c := by
  simp only [Char.isWhitespace, Bool.or_eq_true, decide_eq_true_eq] at h
  rcases h with ((h | h) | h) | h <;> subst h <;> decide


/-! ## Concrete inputs used by counterexamples and witnesses -/

/-- A message that contains the disallowed term `password` but is 1008
characters long. -/
def c6_long_message : String := String.mk ("password".data ++ List.replicate 1000 'a')

/-! ## Claims about the validator -/

/-- C6 counterexample: the message `password` followed by 1000 further
characters contains a disallowed term, and `validate_message` rejects it, but
with the length reason rather than the personal-information reason — the
claimed reason does not hold regardless of surrounding text. -/
theorem c6_counterexample :
    pyIn "password".data (pyLowerStr c6_long_message).data = true
    ∧ (validate_message c6_long_message).valid = false
    ∧ (validate_message c6_long_message).reason ≠ personal_info_reason
    ∧ (validate_message c6_long_message).reason
        = "Message too long (max 1000 characters)" := by
  refine ⟨by decide, by decide, by decide, by decide⟩

/-- C6 (amended): for every message of at most 1000 characters containing a
term of the static disallowed-term list (all of whose terms are
personal-information terms), `validate_message` returns rejected with the
personal-information reason, regardless of casing or surrounding text. -/
theorem c6_disallowed_term_rejected (m : String)
    (hlen : m.data.length ≤ 1000)
    (hterm : ∃ w ∈ inappropriate_words,
      pyIn w.data (pyLowerStr m).data = true) :
    validate_message m = ⟨false, personal_info_reason⟩ := by
  obtain ⟨w, hw, hpy⟩ := hterm
  have hall : ∀ w ∈ inappropriate_words, ∃ c ∈ w.data,
      c.isWhitespace = false := by decide
  obtain ⟨c, hcw, hcns⟩ := hall w hw
  have hcm : c ∈ (pyLowerStr m).data := pyIn_subset _ _ hpy c hcw
  have hmap : ∃ c0 ∈ m.data, Char.toLower c0 = c := by
    simpa [pyLowerStr] using hcm
  obtain ⟨c0, hc0m, hc0l⟩ := hmap
  have hc0ns : c0.isWhitespace = false := by
    cases h : c0.isWhitespace with
    | false => rfl
    | true =>
      rw [toLower_of_whitespace h] at hc0l
      rw [hc0l] at h
      rw [h] at hcns
      cases hcns
  have h1 : ¬(m.data = [] ∨ (pyStrip m).data = []) := by
    push_neg
    exact ⟨List.ne_nil_of_mem hc0m, pyStrip_ne_nil hc0m hc0ns⟩
  have h2 : ¬(m.data.length > 1000) := by omega
  cases hf : inappropriate_words.find?
      (fun w => pyIn w.data (pyLowerStr m).data) with
  | none =>
    have := List.find?_eq_none.mp hf w hw
    simp [hpy] at this
  | some w' =>
    unfold validate_message
    rw [if_neg h1, if_neg h2, hf]

/-- Witness for the amended C6 theorem at a concrete input. -/
theorem c6_disallowed_term_rejected_witness :
    validate_message "My PASSWORD!" = ⟨false, personal_info_reason⟩ :=
  c6_disallowed_term_rejected "My PASSWORD!" (by decide)
    ⟨"password", by decide, by decide⟩

/-- C7 counterexample: a whitespace-only message has at most 1000 characters
and contains no disallowed term, yet `validate_message` rejects it as
empty. -/
theorem c7_counterexample :
    (" ").data.length ≤ 1000
    ∧ (∀ w ∈ inappropriate_words, pyIn w.data (pyLowerStr " ").data = false)
    ∧ validate_message " " = ⟨false, "Message cannot be empty"⟩ := by
  refine ⟨by decide, by decide, by decide⟩

/-- C7 (amended): for every message of at most 1000 characters that is not
empty or whitespace-only and contains no disallowed term, `validate_message`
returns accepted. -/
theorem c7_clean_message_accepted (m : String)
    (hstrip : (pyStrip m).data ≠ [])
    (hlen : m.data.length ≤ 1000)
    (hterm : ∀ w ∈ inappropriate_words,
      pyIn w.data (pyLowerStr m).data = false) :
    validate_message m = ⟨true, "Message is appropriate"⟩ := by
  have hne : m.data ≠ [] := by
    intro h
    apply hstrip
    have : pyStrip m = pyStrip (String.mk []) := by
      cases m with
      | mk d => cases h; rfl
    rw [this]
    rfl
  have h1 : ¬(m.data = [] ∨ (pyStrip m).data = []) := by
    push_neg
    exact ⟨hne, hstrip⟩
  have h2 : ¬(m.data.length > 1000) := by omega
  have hf : inappropriate_words.find?
      (fun w => pyIn w.data (pyLowerStr m).data) = none := by
    apply List.find?_eq_none.mpr
    intro w hw
    simp [hterm w hw]
  unfold validate_message
  rw [if_neg h1, if_neg h2, hf]

/-- Witness for the amended C7 theorem at a concrete input. -/
theorem c7_clean_message_accepted_witness :
    validate_message "Hello!" = ⟨true, "Message is appropriate"⟩ :=
  c7_clean_message_accepted "Hello!" (by decide) (by decide) (by decide)


/-! ## Claims about the fallback table -/

lemma resolved_responses_cases (a : String) :
    resolved_responses a =
      (if a = "8-10" then fb_8_10
       else if a = "11-13" then fb_11_13
       else if a = "14-16" then fb_14_16
       else fb_11_13) := by
  unfold resolved_responses fallback_responses
  by_cases h1 : a = "8-10"
  · rw [if_pos h1, if_pos h1]
  · rw [if_neg h1, if_neg h1]
    by_cases h2 : a = "11-13"
    · rw [if_pos h2, if_pos h2]
    · rw [if_neg h2, if_neg h2]
      by_cases h3 : a = "14-16"
      · rw [if_pos h3, if_pos h3]
      · rw [if_neg h3, if_neg h3]

lemma spec_table_eval (ml : String) (R : AgeResponses) :
    (match spec_topic_table.find? (fun e => containsAny e.1 ml) with
     | some e => e.2 R
     | none => R.default)
    = (if containsAny ["hello", "hi", "hey", "start"] ml then R.greeting
       else if containsAny ["computer", "pc", "laptop", "machine"] ml then
         R.computer
       else if containsAny ["internet", "web", "online", "network"] ml then
         R.internet
       else if containsAny ["code", "programming", "coding", "python",
           "javascript"] ml then R.coding
       else if containsAny ["safe", "safety", "protect", "security"] ml then
         R.safety
       else if containsAny ["math", "mathematics", "calculate", "equation"]
           ml then R.math
       else if containsAny ["science", "scientific", "physics", "chemistry",
           "biology"] ml then R.science
       else R.default) := by
  unfold spec_topic_table
  cases h1 : containsAny ["hello", "hi", "hey", "start"] ml with
  | true =>
    rw [List.find?_cons_of_pos
      (p := fun e : List String × (AgeResponses → String) => containsAny e.1 ml) _ h1]
    rfl
  | false =>
  rw [List.find?_cons_of_neg _ (by simp [h1]), if_neg (by simp [h1])]
  cases h2 : containsAny ["computer", "pc", "laptop", "machine"] ml with
  | true =>
    rw [List.find?_cons_of_pos
      (p := fun e : List String × (AgeResponses → String) => containsAny e.1 ml) _ h2]
    rfl
  | false =>
  rw [List.find?_cons_of_neg _ (by simp [h2]), if_neg (by simp [h2])]
  cases h3 : containsAny ["internet", "web", "online", "network"] ml with
  | true =>
    rw [List.find?_cons_of_pos
      (p := fun e : List String × (AgeResponses → String) => containsAny e.1 ml) _ h3]
    rfl
  | false =>
  rw [List.find?_cons_of_neg _ (by simp [h3]), if_neg (by simp [h3])]
  cases h4 : containsAny ["code", "programming", "coding", "python",
      "javascript"] ml with
  | true =>
    rw [List.find?_cons_of_pos
      (p := fun e : List String × (AgeResponses → String) => containsAny e.1 ml) _ h4]
    rfl
  | false =>
  rw [List.find?_cons_of_neg _ (by simp [h4]), if_neg (by simp [h4])]
  cases h5 : containsAny ["safe", "safety", "protect", "security"] ml with
  | true =>
    rw [List.find?_cons_of_pos
      (p := fun e : List String × (AgeResponses → String) => containsAny e.1 ml) _ h5]
    rfl
  | false =>
  rw [List.find?_cons_of_neg _ (by simp [h5]), if_neg (by simp [h5])]
  cases h6 : containsAny ["math", "mathematics", "calculate", "equation"]
      ml with
  | true =>
    rw [List.find?_cons_of_pos
      (p := fun e : List String × (AgeResponses → String) => containsAny e.1 ml) _ h6]
    rfl
  | false =>
  rw [List.find?_cons_of_neg _ (by simp [h6]), if_neg (by simp [h6])]
  cases h7 : containsAny ["science", "scientific", "physics", "chemistry",
      "biology"] ml with
  | true =>
    rw [List.find?_cons_of_pos
      (p := fun e : List String × (AgeResponses → String) => containsAny e.1 ml) _ h7]
    rfl
  | false =>
  rw [List.find?_cons_of_neg _ (by simp [h7]), if_neg (by simp [h7])]
  rfl

/-- C8: for every message and age band, the fallback lookup of the code equals
the spec-side lookup: topic selected by case-insensitive keyword membership,
first match in the priority order greeting, computer, internet, coding,
safety, math, science, with `default` when nothing matches, and any unknown
age band coerced to `11-13`. -/
theorem c8_fallback_lookup_matches_spec (m a : String) :
    fallback_spec m a = get_fallback_response m a := by
  unfold fallback_spec get_fallback_response
  rw [resolved_responses_cases a, spec_table_eval]

/-- C10: the fallback topic keyword test is substring containment in the
lowercased message: any message containing `hi` anywhere, also inside a word,
selects the greeting entry of the resolved age band, ahead of every other
topic. -/
theorem c10_substring_keyword_greeting (m a : String)
    (h : pyIn "hi".data (pyLowerStr m).data = true) :
    get_fallback_response m a = (resolved_responses a).greeting := by
  have hc : containsAny ["hello", "hi", "hey", "start"] (pyLowerStr m)
      = true := by
    simp [containsAny, h]
  unfold get_fallback_response
  rw [if_pos hc]

/-- Witness for C10: the message `machine` contains `hi` inside a word (and
is itself a keyword of the computer topic), yet the greeting entry is
returned. -/
theorem c10_substring_keyword_greeting_witness :
    get_fallback_response "machine" "8-10" = (resolved_responses "8-10").greeting :=
  c10_substring_keyword_greeting "machine" "8-10" (by decide)

lemma get_fallback_mem_entry (m a : String) :
    get_fallback_response m a ∈ (resolved_responses a).entryList := by
  simp only [get_fallback_response, AgeResponses.entryList]
  split_ifs <;> simp

lemma entryList_subset (a : String) :
    (resolved_responses a).entryList ⊆ fallback_table_entries := by
  rw [resolved_responses_cases a]
  unfold fallback_table_entries
  by_cases h1 : a = "8-10"
  · rw [if_pos h1]
    intro x hx
    exact List.mem_append_left _ (List.mem_append_left _ hx)
  · rw [if_neg h1]
    by_cases h2 : a = "11-13"
    · rw [if_pos h2]
      intro x hx
      exact List.mem_append_left _ (List.mem_append_right _ hx)
    · rw [if_neg h2]
      by_cases h3 : a = "14-16"
      · rw [if_pos h3]
        intro x hx
        exact List.mem_append_right _ hx
      · rw [if_neg h3]
        intro x hx
        exact List.mem_append_left _ (List.mem_append_right _ hx)

lemma get_fallback_mem (m a : String) :
    get_fallback_response m a ∈ fallback_table_entries :=
  entryList_subset a (get_fallback_mem_entry m a)


/-! ## Claims about the provider gateway -/

/-- C4: for every message string, age-band string and provider name, the
gateway with neither provider configured returns normally with an entry of
the static fallback response table. -/
theorem c4_no_providers_fallback (m a p : String) :
    get_response no_provider_service (.str m) a p
      = .ok (get_fallback_response m a)
    ∧ get_fallback_response m a ∈ fallback_table_entries := by
  refine ⟨?_, get_fallback_mem m a⟩
  simp [get_response, get_response_body, no_provider_service, fallback_on_arg]

/-- C3 counterexample: with the preferred provider configured and raising and
the other provider configured and answering `anthropic-reply`, the gateway
returns the fallback-table greeting, not the reply of the other provider,
which is never attempted. -/
theorem c3_counterexample :
    get_response c3_service (.str "Hello!") "8-10" "openai"
      = .ok fb_8_10.greeting
    ∧ get_response c3_service (.str "Hello!") "8-10" "openai"
      ≠ .ok "anthropic-reply" := by
  have h1 : get_response c3_service (.str "Hello!") "8-10" "openai"
      = .ok fb_8_10.greeting := rfl
  refine ⟨h1, ?_⟩
  rw [h1]
  intro h
  injection h with h2
  exact absurd h2 (by decide)

/-- C3 (amended): whenever the preferred provider is configured and its
attempt raises, the gateway returns the fallback response table lookup
directly, without attempting the other configured provider. -/
theorem c3_failed_attempt_goes_to_fallback (svc : LLMService)
    (f g : MsgArg → String → Except PyErr String) (m a : String)
    (e1 e2 : PyErr) :
    (svc.openai_client = some f → f (.str m) a = .error e1 →
      get_response svc (.str m) a "openai"
        = .ok (get_fallback_response m a))
    ∧ (svc.anthropic_client = some g → g (.str m) a = .error e2 →
      get_response svc (.str m) a "anthropic"
        = .ok (get_fallback_response m a)) := by
  obtain ⟨oc, ac⟩ := svc
  constructor
  · intro h1 h2
    simp only at h1
    subst h1
    simp [get_response, get_response_body, h2, fallback_on_arg]
  · intro h1 h2
    simp only at h1
    subst h1
    unfold get_response get_response_body
    rw [dif_neg (by rintro ⟨h, -⟩; exact absurd h (by decide))]
    rw [dif_pos ⟨rfl, rfl⟩]
    simp [h2, fallback_on_arg]

/-- Witness for the amended C3 theorem: both clients configured and failing,
and the gateway returns the fallback greeting for either preferred
provider. -/
theorem c3_failed_attempt_goes_to_fallback_witness :
    get_response c3_failing_service (.str "Hello!") "8-10" "openai"
      = .ok (get_fallback_response "Hello!" "8-10")
    ∧ get_response c3_failing_service (.str "Hello!") "8-10" "anthropic"
      = .ok (get_fallback_response "Hello!" "8-10") :=
  ⟨(c3_failed_attempt_goes_to_fallback c3_failing_service c3_fail_fun
      c3_fail_fun "Hello!" "8-10" .valueError .valueError).1 rfl rfl,
   (c3_failed_attempt_goes_to_fallback c3_failing_service c3_fail_fun
      c3_fail_fun "Hello!" "8-10" .valueError .valueError).2 rfl rfl⟩

/-! ## Claims about the conversation store -/

/-- C9: calling `get_or_create_user` twice with the same session token, the
second call after the first completed, yields a user with the same id both
times, and the second call leaves the store untouched. -/
theorem c9_get_or_create_user_idempotent (db : Store) (sid : String)
    (a1 a2 : Option String) :
    ((get_or_create_user (get_or_create_user db sid a1).2 sid a2).1).id
      = ((get_or_create_user db sid a1).1).id
    ∧ (get_or_create_user (get_or_create_user db sid a1).2 sid a2).2
      = (get_or_create_user db sid a1).2 := by
  cases hfind : get_user_by_session_id db sid with
  | some u =>
    simp [get_or_create_user, hfind]
  | none =>
    have hfind' : db.users.find? (fun u => u.session_id == sid) = none :=
      hfind
    have h2 : get_user_by_session_id (create_user db sid a1).2 sid
        = some (create_user db sid a1).1 := by
      simp only [get_user_by_session_id, create_user]
      rw [List.find?_append, hfind']
      simp
    simp [get_or_create_user, hfind, h2]


/-- C5 counterexample: a message appended at time 5 to a conversation created
at time 0 leaves the `updated_at` of that conversation at 0 — `create_message`
does not bump it. -/
theorem c5_counterexample :
    (get_conversation_messages c5_db_after_append c5_conv_db.1.id).length = 1
    ∧ (get_conversation c5_db_after_append c5_conv_db.1.id).map
        ConvRow.updated_at = some 0 := by
  refine ⟨rfl, rfl⟩

/-- C5 (amended): `create_message` leaves every conversation row, hence
`updated_at`, unchanged; the bump comes from the separate
`update_conversation_timestamp`, which, called at a time no earlier than the timestamps of any row,
preserves the invariant `created_at ≤ updated_at` on every row and never
decreases the `updated_at` of the targeted conversation. -/
theorem c5_append_and_timestamp (db : Store) (cid : Nat)
    (content role : String) (tok : PyTok) (prov : String) (now : Nat)
    (hinv : ∀ c ∈ db.conversations, c.created_at ≤ c.updated_at)
    (hclock : ∀ c ∈ db.conversations, c.updated_at ≤ now) :
    ((create_message db cid content role tok prov now).2.conversations
      = db.conversations)
    ∧ (∀ c ∈ (update_conversation_timestamp db cid now).conversations,
        c.created_at ≤ c.updated_at)
    ∧ (∀ c c', get_conversation db cid = some c →
        get_conversation (update_conversation_timestamp db cid now) cid
          = some c' → c.updated_at ≤ c'.updated_at) := by
  refine ⟨rfl, ?_, ?_⟩
  · intro c hc
    simp only [update_conversation_timestamp] at hc
    rcases List.mem_map.mp hc with ⟨c0, hc0, hmap⟩
    cases hid : (c0.id == cid) with
    | true =>
      rw [if_pos hid] at hmap
      subst hmap
      exact le_trans (hinv c0 hc0) (hclock c0 hc0)
    | false =>
      rw [if_neg (by simp [hid])] at hmap
      subst hmap
      exact hinv c0 hc0
  · intro c c' hc hc'
    have hidkeep : ∀ x : ConvRow,
        ((if x.id == cid then { x with updated_at := now } else x)).id
          = x.id := by
      intro x
      split <;> rfl
    simp only [get_conversation, update_conversation_timestamp,
      List.find?_map, Function.comp_def, hidkeep] at hc'
    rw [show (db.conversations.find? fun c => c.id == cid) = some c
        from hc] at hc'
    simp only [Option.map_some'] at hc'
    have hc0 : db.conversations.find? (fun x => x.id == cid) = some c := hc
    have hcid : (c.id == cid) = true := by simpa using List.find?_some hc0
    rw [if_pos hcid] at hc'
    have hmem : c ∈ db.conversations := List.mem_of_find?_eq_some hc0
    rw [show c' = { c with updated_at := now } from (Option.some.inj hc').symm]
    exact hclock c hmem

/-- Witness for the amended C5 theorem at a concrete store. -/
theorem c5_append_and_timestamp_witness :
    ((create_message c5_witness_store 1 "x" "user" (PyTok.int 0) "unknown"
        7).2.conversations = c5_witness_store.conversations)
    ∧ (∀ c ∈ (update_conversation_timestamp c5_witness_store 1
          7).conversations, c.created_at ≤ c.updated_at)
    ∧ (∀ c c', get_conversation c5_witness_store 1 = some c →
        get_conversation (update_conversation_timestamp c5_witness_store 1 7)
          1 = some c' → c.updated_at ≤ c'.updated_at) :=
  c5_append_and_timestamp c5_witness_store 1 "x" "user" (.int 0) "unknown" 7
    (by decide) (by decide)

/-! ## Claims about the chat orchestrator -/

/-- C1: at the scenario input — fresh store, new session token, message
`Hello!`, age band `8-10`, no providers configured — the chat endpoint does
not return the greeting fallback text: the gateway call raises, the endpoint
answers with a server error, and the store holds the new conversation with
only the single `user` message. -/
theorem c1_chat_code_behavior :
    (chat_with_techpal no_provider_service empty_store c1_request 0).1
      = .serverError
    ∧ ((chat_with_techpal no_provider_service empty_store c1_request
        0).2).conversations.length = 1
    ∧ ((chat_with_techpal no_provider_service empty_store c1_request
        0).2).messages.map MsgRow.role = ["user"]
    ∧ ((chat_with_techpal no_provider_service empty_store c1_request
        0).2).messages.map MsgRow.content = ["Hello!"] := by
  refine ⟨rfl, rfl, rfl, rfl⟩

/-- C2: at a request whose message has 1001 characters, the validator result
is rejected, yet the endpoint (whose truthiness check never fires) writes a
conversation and the user message before failing with a server error — the
claimed short-circuit before any write does not happen. -/
theorem c2_chat_code_behavior :
    (validate_message c2_long_message).valid = false
    ∧ (chat_with_techpal no_provider_service empty_store c2_request 0).1
      = .serverError
    ∧ ((chat_with_techpal no_provider_service empty_store c2_request
        0).2).conversations.length = 1
    ∧ ((chat_with_techpal no_provider_service empty_store c2_request
        0).2).messages.length = 1 := by
  refine ⟨by decide, rfl, rfl, rfl⟩

end TechPal
